import Mathlib

/-
Formal model of the Fano plane module (`fano_geometry.py`).

The Python module represents points as integers 0..6 and lines as frozensets
of points; a `FanoPlane` holds the point list and the ordered list of 7 lines
built from the cyclic difference-set {0,1,3}.  Here lines are `Finset ℕ`,
the plane is a structure with the same two fields, Python `None`-free
operations are plain functions, and operations that can raise
(IndexError / ValueError / AssertionError) return `Option`, with `none`
modelling the raised exception.  Python sequence indexing (which accepts
negative indices) is modelled by `pyIndex`.  `list(s)[0]` on a set of small
ints iterates in ascending order, modelled by `fsPick`.
-/

namespace Fano

/-- The seven canonical lines, in index order, exactly as listed in
`FanoPlane.__init__`. -/
def fanoLines : List (Finset ℕ) :=
  [{0, 1, 3}, {1, 2, 4}, {2, 3, 5}, {3, 4, 6}, {4, 5, 0}, {5, 6, 1}, {6, 0, 2}]

/-- The plane: the `points` list and the ordered `lines` list
(the `line_names` field of the Python class is presentation-only and
carries no geometric content). -/
structure FanoPlane where
  points : List ℕ
  lines : List (Finset ℕ)

/-- The canonical plane produced by the `FanoPlane()` constructor. -/
def canonicalPlane : FanoPlane := ⟨[0, 1, 2, 3, 4, 5, 6], fanoLines⟩

/-- Python sequence indexing `xs[i]`: negative indices count from the end;
`none` models an `IndexError`. -/
def pyIndex {α : Type} (xs : List α) (i : Int) : Option α :=
  let j : Int := if i < 0 then i + xs.length else i
  if j < 0 then none else xs[j.toNat]?

/-- Python `list(s)[0]` on a frozenset of small naturals: the least element
(small-int sets iterate in ascending order); `none` models the
`IndexError` on an empty set. -/
def fsPick (s : Finset ℕ) : Option ℕ := s.min

/-- `points_on_line`: `self.lines[line_idx]`. -/
def points_on_line (f : FanoPlane) (i : Int) : Option (Finset ℕ) :=
  pyIndex f.lines i

/-- Loop of `lines_through_point`: collect the indices (starting at `i`) of
the lines containing `p`, in order. -/
def collectLineIdx (p : ℕ) : List (Finset ℕ) → ℕ → List ℕ
  | [], _ => []
  | l :: ls, i =>
    if p ∈ l then i :: collectLineIdx p ls (i + 1) else collectLineIdx p ls (i + 1)

/-- `lines_through_point`: `[i for i, line in enumerate(self.lines) if point in line]`. -/
def lines_through_point (f : FanoPlane) (p : ℕ) : List ℕ :=
  collectLineIdx p f.lines 0

/-- `intersection`: set intersection of the two indexed lines, asserting it
is a singleton; `none` models the failed assertion (or an IndexError). -/
def intersection (f : FanoPlane) (i j : Int) : Option ℕ := do
  let l1 ← pyIndex f.lines i
  let l2 ← pyIndex f.lines j
  if (l1 ∩ l2).card = 1 then fsPick (l1 ∩ l2) else none

/-- Loop of `line_through_points`: first index (starting at `i`) of a line
containing both points. -/
def findLineIdx (p1 p2 : ℕ) : List (Finset ℕ) → ℕ → Option ℕ
  | [], _ => none
  | l :: ls, i =>
    if p1 ∈ l ∧ p2 ∈ l then some i else findLineIdx p1 p2 ls (i + 1)

/-- `line_through_points`: the first line whose set contains both points;
`none` models the `ValueError`. -/
def line_through_points (f : FanoPlane) (p1 p2 : ℕ) : Option ℕ :=
  findLineIdx p1 p2 f.lines 0

/-- `third_point`: look the line up, then take the (first) element of
`line - {p1, p2}`. -/
def third_point (f : FanoPlane) (p1 p2 : ℕ) : Option ℕ := do
  let li ← line_through_points f p1 p2
  let l ← points_on_line f li
  fsPick (l \ {p1, p2})

/-- `is_collinear`: membership of `p3` in the looked-up line, with the
`ValueError` from the lookup swallowed into `false`.  (The inner `none`
branch is unreachable: the index returned by `line_through_points` is
always in range.) -/
def is_collinear (f : FanoPlane) (p1 p2 p3 : ℕ) : Bool :=
  match line_through_points f p1 p2 with
  | some li =>
    match points_on_line f li with
    | some l => decide (p3 ∈ l)
    | none => false
  | none => false

/-- `complement_line`: `set(self.points) - self.points_on_line(line_idx)`. -/
def complement_line (f : FanoPlane) (i : Int) : Option (Finset ℕ) :=
  (points_on_line f i).map (fun l => f.points.toFinset \ l)

/-- `automorphism_cyclic`: the map `p ↦ (p + k) % 7` (the Python dict on
`self.points`, modelled as a total function). -/
def automorphism_cyclic (f : FanoPlane) (k : ℕ) : ℕ → ℕ :=
  fun p => (p + k) % 7

/-- `apply_automorphism`: a fresh canonical plane whose lines are replaced by
the images of this plane's lines, in the same order. -/
def apply_automorphism (f : FanoPlane) (σ : ℕ → ℕ) : FanoPlane :=
  { canonicalPlane with lines := f.lines.map (fun l => l.image σ) }

/-- Entry `(p, j)` of the incidence matrix built by `incidence_matrix`:
`1` if point `p` is on line `j`, else `0` (rows are points, columns are
lines). -/
def incidence_matrix (f : FanoPlane) (p j : Fin 7) : ℕ :=
  if (p : ℕ) ∈ f.lines.getD (j : ℕ) ∅ then 1 else 0

/-- Entry `(p, q)` of the product `M · Mᵗ` of the incidence matrix with its
transpose. -/
def gram (f : FanoPlane) (p q : Fin 7) : ℕ :=
  ∑ j : Fin 7, incidence_matrix f p j * incidence_matrix f q j

/-- First check of `verify_axioms`: every pair of distinct points lies on
exactly one line. -/
def axm1 (f : FanoPlane) : Bool :=
  f.points.all fun p1 => f.points.all fun p2 =>
    !decide (p1 < p2) || (f.lines.countP (fun l => decide (p1 ∈ l) && decide (p2 ∈ l)) == 1)

/-- Second check of `verify_axioms`: every pair of distinct lines meets in
exactly one point. -/
def axm2 (f : FanoPlane) : Bool :=
  (List.range f.lines.length).all fun i =>
    (List.range f.lines.length).all fun j =>
      !decide (i < j) || ((f.lines.getD i ∅ ∩ f.lines.getD j ∅).card == 1)

/-- Third check of `verify_axioms`: every line has exactly 3 points. -/
def axm3 (f : FanoPlane) : Bool :=
  f.lines.all fun l => l.card == 3

/-- Fourth check of `verify_axioms`: every point is on exactly 3 lines. -/
def axm4 (f : FanoPlane) : Bool :=
  f.points.all fun p => f.lines.countP (fun l => decide (p ∈ l)) == 3

/-- Fifth check of `verify_axioms`: some 4 of the points 0..6 (the Python
loops range over 0..6, not over `f.points`) have no 3 of them collinear. -/
def axm5 (f : FanoPlane) : Bool :=
  (List.range 7).any fun p1 => (List.range 7).any fun p2 =>
    (List.range 7).any fun p3 => (List.range 7).any fun p4 =>
      decide (p1 < p2) && decide (p2 < p3) && decide (p3 < p4) &&
      !(is_collinear f p1 p2 p3 || is_collinear f p1 p2 p4 ||
        is_collinear f p1 p3 p4 || is_collinear f p2 p3 p4)

/-- `verify_axioms`: the insertion-ordered dict of the five named checks. -/
def verify_axioms (f : FanoPlane) : List (String × Bool) :=
  [("Two points determine unique line", axm1 f),
   ("Two lines intersect at unique point", axm2 f),
   ("Each line has 3 points", axm3 f),
   ("Each point on 3 lines", axm4 f),
   ("Has 4 independent points", axm5 f)]

/-- Claim C1: the canonical construction produces exactly the cyclic
difference-set lines — line `i` is `{(0+i) % 7, (1+i) % 7, (3+i) % 7}` for
every `i < 7`, in particular lines 0 and 1 are `{0,1,3}` and `{1,2,4}`, and
the points sequence is exactly `[0,1,2,3,4,5,6]`. -/
theorem C1_cyclic_construction :
    canonicalPlane.points = [0, 1, 2, 3, 4, 5, 6] ∧
    (∀ i : ℕ, i < 7 →
      canonicalPlane.lines.getD i ∅ =
        ({(0 + i) % 7, (1 + i) % 7, (3 + i) % 7} : Finset ℕ)) ∧
    canonicalPlane.lines.getD 0 ∅ = ({0, 1, 3} : Finset ℕ) ∧
    canonicalPlane.lines.getD 1 ∅ = ({1, 2, 4} : Finset ℕ) := by
  refine ⟨rfl, ?_, by decide, by decide⟩
  decide

theorem C1_witness :
    canonicalPlane.lines.getD 4 ∅ =
      ({(0 + 4) % 7, (1 + 4) % 7, (3 + 4) % 7} : Finset ℕ) :=
  C1_cyclic_construction.2.1 4 (by decide)

/-- Packaging helper: turn a decidably-checked `isSome` plus a fact about the
default-extracted value into an existential over the option. -/
theorem opt_exists {o : Option ℕ} {q : ℕ → Prop}
    (h1 : o.isSome = true) (h2 : q (o.getD 0)) : ∃ p, o = some p ∧ q p := by
  cases o with
  | none => simp at h1
  | some p => exact ⟨p, rfl, h2⟩

/-- Claim C2: `verify_axioms` on the canonical plane returns exactly the five
fixed axiom names, each mapped to `true`. -/
theorem C2_verify_all_true :
    verify_axioms canonicalPlane =
      [("Two points determine unique line", true),
       ("Two lines intersect at unique point", true),
       ("Each line has 3 points", true),
       ("Each point on 3 lines", true),
       ("Has 4 independent points", true)] := by
  decide

/-- Claim C3 counterexample: the claimed identity `M·Mᵗ = 3·I + J` already
fails at the diagonal entry `(0,0)`: the entry of `M·Mᵗ` is 3 (point 0 lies
on exactly 3 lines) while `3·I + J` has 4 there. -/
theorem C3_cex :
    ¬ (gram canonicalPlane 0 0 =
        3 * (if (0 : Fin 7) = (0 : Fin 7) then 1 else 0) + 1) := by
  decide

/-- Claim C3 (amended): on the canonical plane the matrix `M` returned by
`incidence_matrix` has entry `(p, j)` equal to 1 iff point `p` is a member of
line `j` and 0 otherwise, every row sum is 3, every column sum is 3, and the
exact integer identity `M·Mᵗ = 2·I + J` holds (order-2 plane: `n·I + J` with
`n = 2`), where `I` is the 7×7 identity and `J` the all-ones matrix. -/
theorem C3_incidence_identity :
    (∀ p j : Fin 7,
      (incidence_matrix canonicalPlane p j = 1 ↔
        (p : ℕ) ∈ canonicalPlane.lines.getD (j : ℕ) ∅) ∧
      (incidence_matrix canonicalPlane p j = 0 ↔
        (p : ℕ) ∉ canonicalPlane.lines.getD (j : ℕ) ∅)) ∧
    (∀ p : Fin 7, ∑ j : Fin 7, incidence_matrix canonicalPlane p j = 3) ∧
    (∀ j : Fin 7, ∑ p : Fin 7, incidence_matrix canonicalPlane p j = 3) ∧
    (∀ p q : Fin 7,
      gram canonicalPlane p q = 2 * (if p = q then 1 else 0) + 1) := by
  decide

/-- Claim C4: for distinct line indices `i ≠ j` in 0..6 on the canonical
plane, `intersection` succeeds and returns a point lying on both lines; it
fails (`none`, the failed assertion) exactly when the set intersection of the
two indexed lines is not a singleton — in particular `intersection i i`
fails, the self-intersection being the whole 3-point line. -/
theorem C4_intersection_unique :
    ∀ i j : ℕ, i < 7 → j < 7 →
      (i ≠ j → ∃ p, intersection canonicalPlane i j = some p ∧
        p ∈ canonicalPlane.lines.getD i ∅ ∧ p ∈ canonicalPlane.lines.getD j ∅) ∧
      (intersection canonicalPlane i j = none ↔
        (canonicalPlane.lines.getD i ∅ ∩ canonicalPlane.lines.getD j ∅).card ≠ 1) ∧
      intersection canonicalPlane i i = none := by
  have key : ∀ i : ℕ, i < 7 → ∀ j : ℕ, j < 7 →
      (i ≠ j → (intersection canonicalPlane i j).isSome = true ∧
        ((intersection canonicalPlane i j).getD 0 ∈ canonicalPlane.lines.getD i ∅ ∧
         (intersection canonicalPlane i j).getD 0 ∈ canonicalPlane.lines.getD j ∅)) ∧
      (intersection canonicalPlane i j = none ↔
        (canonicalPlane.lines.getD i ∅ ∩ canonicalPlane.lines.getD j ∅).card ≠ 1) ∧
      intersection canonicalPlane i i = none := by decide
  intro i j hi hj
  obtain ⟨k1, k2, k3⟩ := key i hi j hj
  exact ⟨fun hne => opt_exists (k1 hne).1 (k1 hne).2, k2, k3⟩

theorem C4_witness :
    ∃ p, intersection canonicalPlane 0 1 = some p ∧
      p ∈ canonicalPlane.lines.getD 0 ∅ ∧ p ∈ canonicalPlane.lines.getD 1 ∅ :=
  (C4_intersection_unique 0 1 (by decide) (by decide)).1 (by decide)

/-- Claim C5: for every `k < 7`, applying the cyclic automorphism `+k mod 7`
to the canonical plane yields a plane whose line at each index `i` is the
image set of the original line `i`, and whose unordered set of lines equals
the original's set of lines. -/
theorem C5_cyclic_shift :
    ∀ k : ℕ, k < 7 →
      (∀ i : ℕ, i < 7 →
        (apply_automorphism canonicalPlane
            (automorphism_cyclic canonicalPlane k)).lines.getD i ∅ =
          (canonicalPlane.lines.getD i ∅).image (fun p => (p + k) % 7)) ∧
      (apply_automorphism canonicalPlane
          (automorphism_cyclic canonicalPlane k)).lines.toFinset =
        canonicalPlane.lines.toFinset := by
  decide

theorem C5_witness :
    (apply_automorphism canonicalPlane
        (automorphism_cyclic canonicalPlane 3)).lines.toFinset =
      canonicalPlane.lines.toFinset :=
  (C5_cyclic_shift 3 (by decide)).2

/-- Claim C6: for distinct points `p1 ≠ p2` in 0..6 on the canonical plane,
`third_point` returns a point distinct from both such that `{p1, p2, third}`
is exactly the 3-point set of the line `line_through_points` found. -/
theorem C6_third_point_reconstruct :
    ∀ p1 p2 : ℕ, p1 < 7 → p2 < 7 → p1 ≠ p2 →
      ∃ t li, third_point canonicalPlane p1 p2 = some t ∧ t ≠ p1 ∧ t ≠ p2 ∧
        line_through_points canonicalPlane p1 p2 = some li ∧
        points_on_line canonicalPlane li = some ({p1, p2, t} : Finset ℕ) := by
  have key1 : ∀ p1 : ℕ, p1 < 7 → ∀ p2 : ℕ, p2 < 7 → p1 ≠ p2 →
      (third_point canonicalPlane p1 p2).isSome = true := by decide
  have key2 : ∀ p1 : ℕ, p1 < 7 → ∀ p2 : ℕ, p2 < 7 → p1 ≠ p2 →
      (line_through_points canonicalPlane p1 p2).isSome = true := by decide
  have key3 : ∀ p1 : ℕ, p1 < 7 → ∀ p2 : ℕ, p2 < 7 → p1 ≠ p2 →
      (third_point canonicalPlane p1 p2).getD 0 ≠ p1 ∧
      (third_point canonicalPlane p1 p2).getD 0 ≠ p2 := by decide
  have key4 : ∀ p1 : ℕ, p1 < 7 → ∀ p2 : ℕ, p2 < 7 → p1 ≠ p2 →
      (points_on_line canonicalPlane
          ((line_through_points canonicalPlane p1 p2).getD 0)).isSome = true := by decide
  have key5 : ∀ p1 : ℕ, p1 < 7 → ∀ p2 : ℕ, p2 < 7 → p1 ≠ p2 →
      (points_on_line canonicalPlane
          ((line_through_points canonicalPlane p1 p2).getD 0)).getD ∅ =
        ({p1, p2, (third_point canonicalPlane p1 p2).getD 0} : Finset ℕ) := by decide
  intro p1 p2 h1 h2 hne
  obtain ⟨k3, k4⟩ := key3 p1 h1 p2 h2 hne
  have k5 := key4 p1 h1 p2 h2 hne
  have k6 := key5 p1 h1 p2 h2 hne
  obtain ⟨t, ht⟩ := Option.isSome_iff_exists.mp (key1 p1 h1 p2 h2 hne)
  obtain ⟨li, hli⟩ := Option.isSome_iff_exists.mp (key2 p1 h1 p2 h2 hne)
  rw [ht] at k3 k4
  rw [hli] at k5 k6
  rw [ht] at k6
  simp only [Option.getD_some] at k3 k4 k5 k6
  obtain ⟨l, hl⟩ := Option.isSome_iff_exists.mp k5
  rw [hl] at k6
  simp only [Option.getD_some] at k6
  refine ⟨t, li, ht, k3, k4, hli, ?_⟩
  rw [hl, k6]

theorem C6_witness :
    ∃ t li, third_point canonicalPlane 0 1 = some t ∧ t ≠ 0 ∧ t ≠ 1 ∧
      line_through_points canonicalPlane 0 1 = some li ∧
      points_on_line canonicalPlane li = some ({0, 1, t} : Finset ℕ) :=
  C6_third_point_reconstruct 0 1 (by decide) (by decide) (by decide)

/-- Claim C7 counterexample: the claim says `is_collinear` returns `false`
whenever `p1 == p2`, but `is_collinear(0, 0, 1)` returns `true`: the lookup
for the pair `(0, 0)` does not fail, it finds line 0 = `{0,1,3}`, which
contains 1. -/
theorem C7_cex : ¬ (is_collinear canonicalPlane 0 0 1 = false) := by
  decide

/-- Claim C7 (amended): `is_collinear` is a total `Bool`-valued predicate
(it never raises, by type).  For distinct points `p1 ≠ p2` in 0..6 it returns
`true` iff some line contains all of `p1`, `p2`, `p3`; whenever the
underlying line lookup fails, the error is swallowed into `false`; but when
`p1 = p2` (a valid point) it is not constantly `false`: it reports whether
`p3` lies on the lowest-indexed line containing `p1`. -/
theorem C7_collinear_total :
    (∀ p1 p2 p3 : ℕ, p1 < 7 → p2 < 7 → p3 < 7 → p1 ≠ p2 →
      (is_collinear canonicalPlane p1 p2 p3 = true ↔
        ∃ l ∈ canonicalPlane.lines, p1 ∈ l ∧ p2 ∈ l ∧ p3 ∈ l)) ∧
    (∀ p1 p2 p3 : ℕ, line_through_points canonicalPlane p1 p2 = none →
      is_collinear canonicalPlane p1 p2 p3 = false) ∧
    (∀ p p3 : ℕ, p < 7 → p3 < 7 →
      is_collinear canonicalPlane p p p3 =
        decide (p3 ∈ (canonicalPlane.lines.find? (fun l => decide (p ∈ l))).getD ∅)) := by
  refine ⟨?_, ?_, ?_⟩
  · have key : ∀ p1 : ℕ, p1 < 7 → ∀ p2 : ℕ, p2 < 7 → ∀ p3 : ℕ, p3 < 7 → p1 ≠ p2 →
        is_collinear canonicalPlane p1 p2 p3 =
          canonicalPlane.lines.any
            (fun l => decide (p1 ∈ l) && decide (p2 ∈ l) && decide (p3 ∈ l)) := by
      decide
    intro p1 p2 p3 h1 h2 h3 hne
    rw [key p1 h1 p2 h2 p3 h3 hne]
    simp [List.any_eq_true, and_assoc]
  · intro p1 p2 p3 h
    simp [is_collinear, h]
  · have key : ∀ p : ℕ, p < 7 → ∀ p3 : ℕ, p3 < 7 →
        is_collinear canonicalPlane p p p3 =
          decide (p3 ∈ (canonicalPlane.lines.find? (fun l => decide (p ∈ l))).getD ∅) := by
      decide
    intro p p3 h1 h3
    exact key p h1 p3 h3

theorem C7_witness :
    is_collinear canonicalPlane 0 1 3 = true ↔
      ∃ l ∈ canonicalPlane.lines, 0 ∈ l ∧ 1 ∈ l ∧ 3 ∈ l :=
  C7_collinear_total.1 0 1 3 (by decide) (by decide) (by decide) (by decide)

/-- Helper: the line-search loop returns `none` iff no line in the remaining
list contains both points. -/
theorem findLineIdx_eq_none_iff (p1 p2 : ℕ) (ls : List (Finset ℕ)) (i : ℕ) :
    findLineIdx p1 p2 ls i = none ↔ ∀ l ∈ ls, ¬ (p1 ∈ l ∧ p2 ∈ l) := by
  induction ls generalizing i with
  | nil => simp [findLineIdx]
  | cons l ls ih =>
    simp only [findLineIdx]
    by_cases h : p1 ∈ l ∧ p2 ∈ l
    · rw [if_pos h]
      constructor
      · intro hs
        simp at hs
      · intro hall
        exact absurd h (hall l (List.mem_cons_self l ls))
    · rw [if_neg h, ih]
      constructor
      · intro ht l₂ hl₂
        rcases List.mem_cons.mp hl₂ with rfl | hm
        · exact h
        · exact ht l₂ hm
      · intro hall l₂ hl₂
        exact hall l₂ (List.mem_cons_of_mem l hl₂)

/-- Helper: the index-collecting loop returns `[]` when no line in the list
contains the point. -/
theorem collectLineIdx_eq_nil (p : ℕ) (ls : List (Finset ℕ)) (i : ℕ)
    (h : ∀ l ∈ ls, p ∉ l) : collectLineIdx p ls i = [] := by
  induction ls generalizing i with
  | nil => rfl
  | cons l ls ih =>
    simp only [collectLineIdx]
    rw [if_neg (h l (List.mem_cons_self l ls))]
    exact ih (i + 1) (fun l₂ hl₂ => h l₂ (List.mem_cons_of_mem l hl₂))

/-- Helper: a natural number of size at least 7 lies on none of the seven
canonical lines. -/
theorem not_mem_fanoLines (p : ℕ) (hp : 7 ≤ p) : ∀ l ∈ fanoLines, p ∉ l := by
  intro l hl
  fin_cases hl <;> simp [Finset.mem_insert, Finset.mem_singleton] <;> omega

/-- Claim C8 counterexample: the claim says `line_through_points` fails with
NotFound when `p1 == p2`, but `line_through_points(0, 0)` succeeds, returning
index 0 (line `{0,1,3}` is the first line containing 0 twice over). -/
theorem C8_cex : line_through_points canonicalPlane 0 0 = some 0 := by decide

/-- Claim C8 (amended): `line_through_points` returns the least line index
whose point-set contains both arguments: for distinct points of the
canonical plane this is the unique line through them; for `p1 = p2` a valid
point it does NOT fail but returns the least index of a line containing the
point; it fails with NotFound exactly when no line contains both arguments
(e.g. an out-of-range point). -/
theorem C8_line_lookup :
    (∀ p1 p2 : ℕ, p1 < 7 → p2 < 7 → p1 ≠ p2 →
      ∃ li, line_through_points canonicalPlane p1 p2 = some li ∧ li < 7 ∧
        p1 ∈ canonicalPlane.lines.getD li ∅ ∧ p2 ∈ canonicalPlane.lines.getD li ∅ ∧
        ∀ j : ℕ, j < 7 → p1 ∈ canonicalPlane.lines.getD j ∅ →
          p2 ∈ canonicalPlane.lines.getD j ∅ → j = li) ∧
    (∀ p : ℕ, p < 7 →
      ∃ li, line_through_points canonicalPlane p p = some li ∧
        p ∈ canonicalPlane.lines.getD li ∅ ∧
        ∀ j : ℕ, j < li → p ∉ canonicalPlane.lines.getD j ∅) ∧
    (∀ p1 p2 : ℕ, line_through_points canonicalPlane p1 p2 = none ↔
      ∀ l ∈ canonicalPlane.lines, ¬ (p1 ∈ l ∧ p2 ∈ l)) := by
  refine ⟨?_, ?_, ?_⟩
  · have keyA : ∀ p1 : ℕ, p1 < 7 → ∀ p2 : ℕ, p2 < 7 → p1 ≠ p2 →
        (line_through_points canonicalPlane p1 p2).isSome = true := by decide
    have keyB : ∀ p1 : ℕ, p1 < 7 → ∀ p2 : ℕ, p2 < 7 → p1 ≠ p2 →
        (line_through_points canonicalPlane p1 p2).getD 0 < 7 ∧
        p1 ∈ canonicalPlane.lines.getD
          ((line_through_points canonicalPlane p1 p2).getD 0) ∅ ∧
        p2 ∈ canonicalPlane.lines.getD
          ((line_through_points canonicalPlane p1 p2).getD 0) ∅ := by decide
    have keyC : ∀ p1 : ℕ, p1 < 7 → ∀ p2 : ℕ, p2 < 7 → p1 ≠ p2 →
        ((List.range 7).all fun j =>
          !(decide (p1 ∈ canonicalPlane.lines.getD j ∅) &&
            decide (p2 ∈ canonicalPlane.lines.getD j ∅)) ||
          (j == (line_through_points canonicalPlane p1 p2).getD 0)) = true := by
      decide
    intro p1 p2 h1 h2 hne
    obtain ⟨li, hli⟩ := Option.isSome_iff_exists.mp (keyA p1 h1 p2 h2 hne)
    have kb := keyB p1 h1 p2 h2 hne
    rw [hli] at kb
    simp only [Option.getD_some] at kb
    refine ⟨li, hli, kb.1, kb.2.1, kb.2.2, ?_⟩
    intro j hj m1 m2
    have hf := List.all_eq_true.mp (keyC p1 h1 p2 h2 hne) j (List.mem_range.mpr hj)
    rw [hli] at hf
    simp only [Option.getD_some] at hf
    simp only [Bool.or_eq_true] at hf
    rcases hf with hno | hbe
    · simp only [List.getD_eq_getElem?_getD] at m1 m2
      simp at hno
      exact hno.elim (fun h => absurd m1 h) (fun h => absurd m2 h)
    · simpa using hbe
  · have keyA : ∀ p : ℕ, p < 7 →
        (line_through_points canonicalPlane p p).isSome = true := by decide
    have keyB : ∀ p : ℕ, p < 7 →
        p ∈ canonicalPlane.lines.getD
          ((line_through_points canonicalPlane p p).getD 0) ∅ ∧
        ∀ j : ℕ, j < (line_through_points canonicalPlane p p).getD 0 →
          p ∉ canonicalPlane.lines.getD j ∅ := by decide
    intro p hp
    obtain ⟨li, hli⟩ := Option.isSome_iff_exists.mp (keyA p hp)
    have kb := keyB p hp
    rw [hli] at kb
    simp only [Option.getD_some] at kb
    exact ⟨li, hli, kb.1, kb.2⟩
  · intro p1 p2
    exact findLineIdx_eq_none_iff p1 p2 canonicalPlane.lines 0

theorem C8_witness :
    ∃ li, line_through_points canonicalPlane 0 1 = some li ∧ li < 7 ∧
      0 ∈ canonicalPlane.lines.getD li ∅ ∧ 1 ∈ canonicalPlane.lines.getD li ∅ ∧
      ∀ j : ℕ, j < 7 → 0 ∈ canonicalPlane.lines.getD j ∅ →
        1 ∈ canonicalPlane.lines.getD j ∅ → j = li :=
  C8_line_lookup.1 0 1 (by decide) (by decide) (by decide)

/-- Claim C9 counterexample: the claim says `lines_through_point` fails with
a DomainError for a point outside 0..6, but `lines_through_point(7)` simply
returns the empty list. -/
theorem C9_cex : lines_through_point canonicalPlane 7 = [] := by decide

/-- Claim C9 (amended): for every valid point in 0..6, `lines_through_point`
returns exactly 3 line indices, in ascending order, precisely those indices
whose line contains the point; for a point outside 0..6 it does not fail but
returns the empty list. -/
theorem C9_lines_through :
    (∀ p : ℕ, p < 7 →
      (lines_through_point canonicalPlane p).length = 3 ∧
      List.Sorted (· < ·) (lines_through_point canonicalPlane p) ∧
      (∀ i ∈ lines_through_point canonicalPlane p, i < 7) ∧
      (∀ i : ℕ, i < 7 →
        (i ∈ lines_through_point canonicalPlane p ↔
          p ∈ canonicalPlane.lines.getD i ∅))) ∧
    (∀ p : ℕ, 7 ≤ p → lines_through_point canonicalPlane p = []) := by
  constructor
  · decide
  · intro p hp
    exact collectLineIdx_eq_nil p canonicalPlane.lines 0 (not_mem_fanoLines p hp)

theorem C9_witness :
    (lines_through_point canonicalPlane 0).length = 3 ∧
    List.Sorted (· < ·) (lines_through_point canonicalPlane 0) ∧
    (∀ i ∈ lines_through_point canonicalPlane 0, i < 7) ∧
    (∀ i : ℕ, i < 7 →
      (i ∈ lines_through_point canonicalPlane 0 ↔
        0 ∈ canonicalPlane.lines.getD i ∅)) :=
  C9_lines_through.1 0 (by decide)

/-- Claim C10: on the canonical plane, `points_on_line` and `complement_line`
accept every negative index in -7..-1 without failing, returning exactly the
result for index `i + 7` (Python sequence indexing), and an out-of-range
failure (`none`, an IndexError) occurs only for an index ≥ 7 or < -7. -/
theorem C10_negative_indexing :
    (∀ i : Int, -7 ≤ i → i ≤ -1 →
      points_on_line canonicalPlane i = points_on_line canonicalPlane (i + 7) ∧
      complement_line canonicalPlane i = complement_line canonicalPlane (i + 7) ∧
      (points_on_line canonicalPlane i).isSome = true ∧
      (complement_line canonicalPlane i).isSome = true) ∧
    (∀ i : Int, points_on_line canonicalPlane i = none → 7 ≤ i ∨ i < -7) ∧
    (∀ i : Int, complement_line canonicalPlane i = none → 7 ≤ i ∨ i < -7) := by
  refine ⟨?_, ?_, ?_⟩
  · intro i h1 h2
    interval_cases i <;> exact ⟨rfl, rfl, rfl, rfl⟩
  · intro i h
    by_contra hc
    push_neg at hc
    obtain ⟨hlt, hge⟩ := hc
    interval_cases i <;> exact absurd h (by decide)
  · intro i h
    by_contra hc
    push_neg at hc
    obtain ⟨hlt, hge⟩ := hc
    interval_cases i <;> exact absurd h (by decide)

theorem C10_witness :
    points_on_line canonicalPlane (-3) = points_on_line canonicalPlane (-3 + 7) ∧
    complement_line canonicalPlane (-3) = complement_line canonicalPlane (-3 + 7) ∧
    (points_on_line canonicalPlane (-3)).isSome = true ∧
    (complement_line canonicalPlane (-3)).isSome = true :=
  C10_negative_indexing.1 (-3) (by decide) (by decide)

end Fano
